import Mathlib

/-!
Verification of the gesture-driven particle morph core of the
`christmas-tree-wish` repository (files `main.js` and `script.js`).

The JavaScript source is shallowly embedded below.  JavaScript numbers are
modelled as real numbers; `Math.random()` draws are modelled as explicit
real (or natural) parameters; a thrown `TypeError` (reading a property of
`undefined`) is modelled by `Except Unit`; the DOM, WebGL and MediaPipe
plumbing is out of scope, as in the specification.
-/

noncomputable section

open Classical

/-- A 3D landmark / vector: `{x, y, z}` objects of the source. -/
structure Point where
  x : ℝ
  y : ℝ
  z : ℝ

/-- A detected hand: MediaPipe's fixed sequence of 21 landmarks. -/
def Hand : Type := Fin 21 → Point

/-- Gesture labels used across the source (`'open'/'closed'/'none'` in
`main.js`, `'OPEN'/'FIST'/'NONE'/'PINCH'` in `script.js`; the spec names
the fist label CLOSED/FIST). -/
inductive Gesture where
  | OPEN
  | CLOSED
  | NONE
  | PINCH
  deriving DecidableEq, Repr

/-- Display modes of `script.js` (`STATE.mode`). -/
inductive Mode where
  | TREE
  | SCATTER
  | FOCUS
  deriving DecidableEq, Repr

namespace MainJs

/-- `main.js` `dist` helper inside `detectGesture`:
`Math.sqrt((p1.x-p2.x)^2 + (p1.y-p2.y)^2 + (p1.z-p2.z)^2)`. -/
def dist (p1 p2 : Point) : ℝ :=
  Real.sqrt ((p1.x - p2.x) ^ 2 + (p1.y - p2.y) ^ 2 + (p1.z - p2.z) ^ 2)

/-- Array indexing `landmarks[i]`; a missing element is JavaScript
`undefined`, and reading `.x` from it throws, modelled by `.error ()`. -/
def getLm (lms : List Point) (i : ℕ) : Except Unit Point :=
  match lms.get? i with
  | some p => .ok p
  | none => .error ()

/-- `main.js` finger table: tips 8/12/16/20 paired with MCP knuckles
5/9/13/17 (index, middle, ring, pinky). -/
def fingerIndices : List (ℕ × ℕ) := [(8, 5), (12, 9), (16, 13), (20, 17)]

/-- `main.js` `detectGesture(landmarks)` (lines 344-394):
`null`/empty input yields `'none'`; otherwise each non-thumb finger is
extended iff `dist(tip,wrist) > dist(mcp,wrist) * 1.5`, and the result is
`'open'` for `extendedCount >= 3`, `'closed'` for `<= 1`, else `'none'`. -/
def detectGesture (landmarks : Option (List Point)) : Except Unit Gesture :=
  match landmarks with
  | none => .ok .NONE
  | some lms =>
    if lms.length = 0 then .ok .NONE
    else do
      let wrist ← getLm lms 0
      let extendedCount ← fingerIndices.foldlM (fun acc pr => do
        let tipP ← getLm lms pr.1
        let mcpP ← getLm lms pr.2
        pure (if dist tipP wrist > dist mcpP wrist * 1.5 then acc + 1 else acc))
        (0 : ℕ)
      if extendedCount ≥ 3 then pure .OPEN
      else if extendedCount ≤ 1 then pure .CLOSED
      else pure .NONE

end MainJs

/-- Spec wording ("Gesture Classifier" contract): a non-thumb finger is
extended iff its tip's 3D Euclidean distance to the wrist exceeds 1.5
times its knuckle's distance to the wrist. -/
def extendedFinger (hand : Hand) (tip mcp : Fin 21) : Prop :=
  MainJs.dist (hand tip) (hand 0) > MainJs.dist (hand mcp) (hand 0) * 1.5

/-- Spec wording: tip/knuckle landmark index pairs of the four non-thumb
fingers (8/5 index, 12/9 middle, 16/13 ring, 20/17 pinky). -/
def specFingers : List (Fin 21 × Fin 21) := [(8, 5), (12, 9), (16, 13), (20, 17)]

/-- Spec wording: `extendedCount` = number of extended non-thumb fingers. -/
def specExtendedCount (hand : Hand) : ℕ :=
  specFingers.countP (fun pr => decide (extendedFinger hand pr.1 pr.2))

/-- Modelled from the spec: classification of a full 21-landmark hand,
OPEN when at least 3 fingers are extended, CLOSED when at most 1, NONE
when exactly 2 (pinch handling is a separate, prior test in `script.js`). -/
def gestureSpec (hand : Hand) : Gesture :=
  if specExtendedCount hand ≥ 3 then .OPEN
  else if specExtendedCount hand ≤ 1 then .CLOSED
  else .NONE

namespace MainJs

/-- `main.js` `predictWebcam`, no-hands branch (lines 414-419):
`state.targetMix = Math.max(0, state.targetMix - 0.02)`. -/
def noHandTargetMix (targetMix : ℝ) : ℝ := max 0 (targetMix - 0.02)

/-- `main.js` `animate` (line 453): per display frame
`uMix.value += (state.targetMix - uMix.value) * 0.05`. -/
def uMixStep (targetMix uMix : ℝ) : ℝ := uMix + (targetMix - uMix) * 0.05

/-- `uMix` after `n` display frames of `animate` with a held `targetMix`,
starting from `b`. -/
def uMixIter (targetMix : ℝ) : ℕ → ℝ → ℝ
  | 0, b => b
  | n + 1, b => uMixStep targetMix (uMixIter targetMix n b)

/-- GLSL `mix(x, y, a) = x * (1 - a) + y * a`, componentwise on `vec3`. -/
def glslMix (a b : Point) (t : ℝ) : Point :=
  ⟨a.x * (1 - t) + b.x * t, a.y * (1 - t) + b.y * t, a.z * (1 - t) + b.z * t⟩

/-- `main.js` vertex shader `main()` (lines 208-251): position pipeline
`pos = mix(position, targetPosition, uMix)`, then 3-axis simplex-noise
turbulence scaled by `uMix * 2.0`, then (while `uMix < 0.5`) a rigid
rotation about the vertical axis by `uTime * 0.1`.  The `snoise` simplex
noise is an arbitrary real-valued function parameter. -/
def shaderPos (snoise : Point → ℝ) (aRandom : Point) (uTime uMix : ℝ)
    (position targetPosition : Point) : Point :=
  let t := uMix
  let pos := glslMix position targetPosition t
  let noiseScale : ℝ := 0.1
  let noiseTime := uTime * 0.5
  let nX := snoise ⟨pos.x * noiseScale, pos.y * noiseScale, noiseTime + aRandom.x⟩
  let nY := snoise ⟨pos.x * noiseScale, pos.y * noiseScale, noiseTime + aRandom.y + 10.0⟩
  let nZ := snoise ⟨pos.x * noiseScale, pos.y * noiseScale, noiseTime + aRandom.z + 20.0⟩
  let turbulence := t * 2.0
  let pos : Point :=
    ⟨pos.x + nX * turbulence, pos.y + nY * turbulence, pos.z + nZ * turbulence⟩
  if t < 0.5 then
    let rot := uTime * 0.1
    ⟨pos.x * Real.cos rot - pos.z * Real.sin rot, pos.y,
     pos.x * Real.sin rot + pos.z * Real.cos rot⟩
  else pos

end MainJs

namespace ScriptJs

/-- `Math.hypot(dx, dy)`: 2D Euclidean norm used by `handleGestures`. -/
def hypot (dx dy : ℝ) : ℝ := Real.sqrt (dx ^ 2 + dy ^ 2)

/-- `script.js` `handleGestures` (line 429): 2D thumb-tip (4) to
index-tip (8) distance. -/
def pinchDist (lm : Hand) : ℝ :=
  hypot ((lm 4).x - (lm 8).x) ((lm 4).y - (lm 8).y)

/-- `script.js` `handleGestures` (lines 431-434): average 2D distance of
the four fingertips (8/12/16/20) from the wrist (0). -/
def avgTipDist (lm : Hand) : ℝ :=
  (hypot ((lm 8).x - (lm 0).x) ((lm 8).y - (lm 0).y) +
   hypot ((lm 12).x - (lm 0).x) ((lm 12).y - (lm 0).y) +
   hypot ((lm 16).x - (lm 0).x) ((lm 16).y - (lm 0).y) +
   hypot ((lm 20).x - (lm 0).x) ((lm 20).y - (lm 0).y)) / 4

/-- `script.js` `handleGestures` gesture branch (lines 436-462): PINCH
when `pinchDist < 0.05`, else OPEN when `avgTipDist > 0.45`, else FIST
(the spec's CLOSED) when `avgTipDist < 0.25`, else NONE. -/
def classifyHand (lm : Hand) : Gesture :=
  if pinchDist lm < 0.05 then .PINCH
  else if avgTipDist lm > 0.45 then .OPEN
  else if avgTipDist lm < 0.25 then .CLOSED
  else .NONE

/-- `script.js` `handleGestures` mode assignment per gesture branch:
PINCH sets FOCUS, OPEN sets SCATTER, FIST sets TREE, and the NONE branch
auto-recovers to TREE from SCATTER or FOCUS (lines 453-462), leaving TREE
unchanged. -/
def modeStep (mode : Mode) : Gesture → Mode
  | .PINCH => .FOCUS
  | .OPEN => .SCATTER
  | .CLOSED => .TREE
  | .NONE => if mode = .SCATTER ∨ mode = .FOCUS then .TREE else mode

/-- The gesture-relevant fields of the `script.js` global `STATE`. -/
structure HandState where
  mode : Mode
  gesture : Gesture
  handDetected : Bool
  rotX : ℝ
  rotY : ℝ

/-- Initial `STATE` of `script.js`: mode TREE, gesture NONE, no hand,
zero rotation. -/
def initialState : HandState :=
  { mode := .TREE, gesture := .NONE, handDetected := false, rotX := 0, rotY := 0 }

/-- `script.js` `handleGestures(results)` (lines 408-469): with a hand,
smooth the rotation toward the palm-derived target (factor 0.1), classify
the gesture and update the mode; with no hand, clear `handDetected` and
force the mode to TREE. -/
def handleGestures (st : HandState) (results : Option Hand) : HandState :=
  match results with
  | some lm =>
    let palm := lm 9
    let targetRotX := (palm.y - 0.5) * 1.5
    let targetRotY := (palm.x - 0.5) * 2.5
    let g := classifyHand lm
    { mode := modeStep st.mode g
      gesture := g
      handDetected := true
      rotX := st.rotX + (targetRotX - st.rotX) * 0.1
      rotY := st.rotY + (targetRotY - st.rotY) * 0.1 }
  | none =>
    { st with handDetected := false, mode := .TREE }

end ScriptJs

namespace ScriptJs

/-- `script.js` `CONFIG.treeHeight`. -/
def treeHeight : ℝ := 25

/-- `script.js` `CONFIG.treeRadius`. -/
def treeRadius : ℝ := 10

/-- `ParticleManager.calculateTreePos(i, total, surfaceOnly)` (lines
589-613); the `Math.random()` used for volume filling is the explicit
parameter `u`. -/
def calculateTreePos (i total : ℝ) (surfaceOnly : Bool) (u : ℝ) : Point :=
  let t := i / total
  let angle := t * Real.pi * 2 * 12
  let y := t * treeHeight - treeHeight / 2
  let progress := 1 - t
  let r0 := progress * treeRadius
  let r := if surfaceOnly then r0 else r0 * Real.sqrt u
  ⟨Real.cos angle * r, y, Real.sin angle * r⟩

/-- `ParticleManager.calculateScatterPos()` (lines 615-626): random
spherical shell, `r = 10 + u1*15`, azimuth `theta = u2*2π`, inclination
`phi = acos(2*u3 - 1)`; the three `Math.random()` draws are the explicit
parameters `u1 u2 u3`. -/
def calculateScatterPos (u1 u2 u3 : ℝ) : Point :=
  let r := 10 + u1 * 15
  let theta := u2 * Real.pi * 2
  let phi := Real.arccos (u3 * 2 - 1)
  ⟨r * Real.sin phi * Real.cos theta,
   r * Real.sin phi * Real.sin theta,
   r * Real.cos phi⟩

/-- `userData.type` tags of `ParticleManager` items. -/
inductive ItemType where
  | PARTICLE
  | PHOTO
  deriving DecidableEq, Repr

/-- A `ParticleManager` item: the mesh `userData` fields relevant to the
formation logic (`type`, `treePos`, `scatterPos`). -/
structure Item where
  type : ItemType
  treePos : Point
  scatterPos : Point

/-- `ParticleManager.triggerFocus()` (lines 628-635): filter the items
whose `userData.type` is `'PHOTO'`; when some exist, set
`STATE.targetPhoto` to a randomly indexed one (the random draw
`Math.floor(Math.random()*photos.length)` is modelled by `k % length`);
otherwise `STATE.targetPhoto` is left unchanged.  Returns the new
`STATE.targetPhoto`. -/
def triggerFocus (items : List Item) (targetPhoto : Option Item) (k : ℕ) :
    Option Item :=
  let photos := items.filter (fun it => decide (it.type = ItemType.PHOTO))
  if h : photos.length > 0 then some (photos.get ⟨k % photos.length, Nat.mod_lt _ h⟩)
  else targetPhoto

/-- `ParticleManager` constructor (lines 502-544): pushes `count` items of
type `'PARTICLE'` (tree position from `calculateTreePos(i, count)`,
scatter position from `calculateScatterPos()`), then `createDefaultPhoto`
→ `addPhoto` pushes one item of type `'PHOTO'` placed on the cone surface
(`calculateTreePos(Math.random()*1000, 1000, true)`).  The `Math.random()`
draws are the explicit stream parameters. -/
def constructorItems (count : ℕ) (uT uS1 uS2 uS3 : ℕ → ℝ)
    (uP uPS1 uPS2 uPS3 : ℝ) : List Item :=
  (List.range count).map (fun i =>
    { type := ItemType.PARTICLE
      treePos := calculateTreePos i count false (uT i)
      scatterPos := calculateScatterPos (uS1 i) (uS2 i) (uS3 i) }) ++
  [{ type := ItemType.PHOTO
     treePos := calculateTreePos (uP * 1000) 1000 true 0
     scatterPos := calculateScatterPos uPS1 uPS2 uPS3 }]

/-- `THREE.Vector3.lerp(v, alpha)`: `this += (v - this) * alpha`,
componentwise. -/
def lerpV (p v : Point) (alpha : ℝ) : Point :=
  ⟨p.x + (v.x - p.x) * alpha, p.y + (v.y - p.y) * alpha, p.z + (v.z - p.z) * alpha⟩

/-- `ParticleManager.update(delta, time, mode)` target position of one
item (lines 641-675): TREE → `treePos`, SCATTER → `scatterPos`, FOCUS →
the presentation slot `(0, 2, 35)` for the focused photo and `scatterPos`
for every other item. -/
def updateTargetPos (mode : Mode) (it : Item) (isTargetPhoto : Bool) : Point :=
  match mode with
  | .TREE => it.treePos
  | .SCATTER => it.scatterPos
  | .FOCUS => if isTargetPhoto then ⟨0, 2, 35⟩ else it.scatterPos

/-- `ParticleManager.update` position step (lines 637-679): per display
frame `mesh.position.lerp(targetPos, 2.0 * delta)`. -/
def updatePosition (mode : Mode) (it : Item) (isTargetPhoto : Bool)
    (pos : Point) (delta : ℝ) : Point :=
  lerpV pos (updateTargetPos mode it isTargetPhoto) (2.0 * delta)

end ScriptJs

section Theorems

open MainJs ScriptJs

/-- Helper: the uMix gap to a held target 1 contracts by the factor 0.95
each `animate` frame. -/
lemma uMixIter_gap (b0 : ℝ) : ∀ n : ℕ, 1 - uMixIter 1 n b0 = 0.95 ^ n * (1 - b0) := by
  intro n
  induction n with
  | zero => simp [uMixIter]
  | succ n ih =>
    have hstep : 1 - uMixStep 1 (uMixIter 1 n b0) = 0.95 * (1 - uMixIter 1 n b0) := by
      unfold uMixStep; ring
    calc 1 - uMixIter 1 (n + 1) b0
        = 0.95 * (1 - uMixIter 1 n b0) := hstep
      _ = 0.95 * (0.95 ^ n * (1 - b0)) := by rw [ih]
      _ = 0.95 ^ (n + 1) * (1 - b0) := by ring

/-- Claim C2: whenever the thumb-tip to index-tip 2D distance is below
0.05, the `script.js` gesture classification returns PINCH, whatever the
fingertip spread is: the PINCH test is evaluated first and wins over the
OPEN and CLOSED (FIST) tests. -/
theorem pinch_wins (lm : Hand) (h : pinchDist lm < 0.05) :
    classifyHand lm = .PINCH := by
  unfold classifyHand
  rw [if_pos h]

/-- Witness for C2: a hand with thumb tip equal to index tip has pinch
distance 0, hence classifies as PINCH. -/
theorem pinch_wins_witness :
    classifyHand (fun _ => ⟨0, 0, 0⟩) = .PINCH := by
  apply pinch_wins
  unfold pinchDist hypot
  norm_num

/-- Claim C4: in the `script.js` mode machine, a NONE gesture with a hand
present sends SCATTER and FOCUS to TREE and leaves TREE at TREE (so no
non-TREE mode survives an ambiguous gesture); `handleGestures` realises
exactly this step; from TREE the gesture sequence
[OPEN, OPEN, NONE, NONE] produces the mode trace
TREE, SCATTER, SCATTER, TREE, TREE; and a lost hand also forces TREE. -/
theorem mode_auto_recovery :
    (∀ st lm, (handleGestures st (some lm)).mode = modeStep st.mode (classifyHand lm)) ∧
    (∀ m : Mode, modeStep m .NONE = .TREE) ∧
    List.scanl modeStep .TREE [.OPEN, .OPEN, .NONE, .NONE] =
      [.TREE, .SCATTER, .SCATTER, .TREE, .TREE] ∧
    (∀ st, (handleGestures st none).mode = .TREE) := by
  refine ⟨fun st lm => rfl, fun m => ?_, by rfl, fun st => rfl⟩
  cases m <;> rfl

/-- Claim C5: with zero hands detected, `script.js` forces the mode to
TREE on that same frame, and `main.js` instead decays the scatter control
to `max(0, targetMix - 0.02)`: a fixed 0.02 step per frame when the
control is at least 0.02, never negative, and never an instantaneous snap
to 0 (the control drops by at most 0.02 per frame). -/
theorem no_hand_reset (st : HandState) (t : ℝ) :
    (handleGestures st none).mode = .TREE ∧
    noHandTargetMix t = max 0 (t - 0.02) ∧
    0 ≤ noHandTargetMix t ∧
    t - 0.02 ≤ noHandTargetMix t ∧
    (0.02 ≤ t → noHandTargetMix t = t - 0.02) := by
  refine ⟨rfl, rfl, le_max_left _ _, le_max_right _ _, fun h => ?_⟩
  unfold noHandTargetMix
  exact max_eq_right (by linarith)

/-- Witness for C5: from the initial `STATE` with no hand the mode is
TREE, and a scatter control of 1 decays to exactly 0.98. -/
theorem no_hand_reset_witness :
    (handleGestures initialState none).mode = .TREE ∧ noHandTargetMix 1 = 1 - 0.02 := by
  exact ⟨(no_hand_reset initialState 1).1, (no_hand_reset initialState 1).2.2.2.2 (by norm_num)⟩

/-- Claim C6: for the `main.js` blend update `uMix += (1 - uMix) * 0.05`
with the target held at 1 and a start in [0,1]: the blend never
decreases, after `n` frames the remaining gap is `0.95 ^ n` times the
initial gap, after at most 90 frames it is within 1% of 1, and (being
updated only by the smoothing formula) it never reaches the target from
strictly below it. -/
theorem uMix_convergence (b0 : ℝ) (h0 : 0 ≤ b0) (h1 : b0 ≤ 1) (n : ℕ) :
    uMixIter 1 n b0 ≤ uMixIter 1 (n + 1) b0 ∧
    1 - uMixIter 1 n b0 = 0.95 ^ n * (1 - b0) ∧
    1 - uMixIter 1 90 b0 < 0.01 ∧
    (b0 < 1 → uMixIter 1 n b0 < 1) := by
  have hgap := uMixIter_gap b0 n
  have hpow : (0:ℝ) ≤ 0.95 ^ n := by positivity
  have hgapnn : 0 ≤ 1 - uMixIter 1 n b0 := by
    rw [hgap]; have : (0:ℝ) ≤ 1 - b0 := by linarith
    positivity
  refine ⟨?_, hgap, ?_, ?_⟩
  · have hstep : uMixIter 1 (n + 1) b0 - uMixIter 1 n b0 =
        (1 - uMixIter 1 n b0) * 0.05 := by
      show uMixStep 1 (uMixIter 1 n b0) - uMixIter 1 n b0 = _
      unfold uMixStep; ring
    nlinarith
  · have h90 := uMixIter_gap b0 90
    have hbound : (0.95:ℝ) ^ 90 < 0.01 := by norm_num
    have hgap1 : (1:ℝ) - b0 ≤ 1 := by linarith
    have hge : (0:ℝ) ≤ 1 - b0 := by linarith
    calc 1 - uMixIter 1 90 b0 = 0.95 ^ 90 * (1 - b0) := h90
      _ ≤ 0.95 ^ 90 * 1 := by
          exact mul_le_mul_of_nonneg_left hgap1 (by positivity)
      _ < 0.01 := by rw [mul_one]; exact hbound
  · intro hlt
    have : 0 < 0.95 ^ n * (1 - b0) := by
      have : (0:ℝ) < 1 - b0 := by linarith
      positivity
    nlinarith

/-- Witness for C6: starting from blend 0, one frame of the update does
not decrease the blend, the 3-frame gap formula holds, 90 frames land
within 1% of 1, and the blend is still strictly below 1. -/
theorem uMix_convergence_witness :
    uMixIter 1 3 0 ≤ uMixIter 1 4 0 ∧
    1 - uMixIter 1 3 0 = 0.95 ^ 3 * (1 - 0) ∧
    1 - uMixIter 1 90 0 < 0.01 ∧
    ((0:ℝ) < 1 → uMixIter 1 3 0 < 1) := by
  have h := uMix_convergence 0 (le_refl 0) (by norm_num) 3
  exact ⟨h.1, h.2.1, h.2.2.1, fun _ => h.2.2.2 (by norm_num)⟩

/-- Claim C7: at blend 0 and elapsed time 0 the vertex-shader position
pipeline is the identity on the rest position: the mix returns the rest
position, the turbulence term is scaled by the blend and vanishes, and
the spin by `time * 0.1` is the identity rotation at time 0 — for any
simplex-noise function and any per-particle random seed. -/
theorem shader_rest_identity (snoise : Point → ℝ) (aRandom : Point)
    (position targetPosition : Point) :
    shaderPos snoise aRandom 0 0 position targetPosition = position := by
  obtain ⟨px, py, pz⟩ := position
  unfold shaderPos glslMix
  norm_num

/-- Claim C8: for any draws with the radius draw in [0,1), the scatter
point returned by `calculateScatterPos` has Euclidean distance from the
origin exactly the sampled radius `10 + u1 * 15`, which lies in the
configured shell range [10, 25]. -/
theorem scatter_on_shell (u1 u2 u3 : ℝ) (h0 : 0 ≤ u1) (h1 : u1 < 1) :
    Real.sqrt ((calculateScatterPos u1 u2 u3).x ^ 2 +
        (calculateScatterPos u1 u2 u3).y ^ 2 +
        (calculateScatterPos u1 u2 u3).z ^ 2) = 10 + u1 * 15 ∧
    10 ≤ 10 + u1 * 15 ∧ 10 + u1 * 15 ≤ 25 := by
  set r : ℝ := 10 + u1 * 15 with hr
  have hrnn : (0:ℝ) ≤ r := by rw [hr]; nlinarith
  have htheta := Real.sin_sq_add_cos_sq (u2 * Real.pi * 2)
  have hphi := Real.sin_sq_add_cos_sq (Real.arccos (u3 * 2 - 1))
  have hsum : (calculateScatterPos u1 u2 u3).x ^ 2 +
      (calculateScatterPos u1 u2 u3).y ^ 2 +
      (calculateScatterPos u1 u2 u3).z ^ 2 = r ^ 2 := by
    unfold calculateScatterPos
    dsimp only
    linear_combination (r ^ 2 * Real.sin (Real.arccos (u3 * 2 - 1)) ^ 2) * htheta +
      r ^ 2 * hphi
  refine ⟨?_, by nlinarith, by nlinarith⟩
  rw [hsum]
  exact Real.sqrt_sq hrnn

/-- Witness for C8: the draw (0, 0, 0) gives a point at distance exactly
10 from the origin, inside [10, 25]. -/
theorem scatter_on_shell_witness :
    Real.sqrt ((calculateScatterPos 0 0 0).x ^ 2 +
        (calculateScatterPos 0 0 0).y ^ 2 +
        (calculateScatterPos 0 0 0).z ^ 2) = 10 + 0 * 15 ∧
    10 ≤ 10 + (0:ℝ) * 15 ∧ 10 + (0:ℝ) * 15 ≤ 25 :=
  scatter_on_shell 0 0 0 (le_refl 0) (by norm_num)

/-- Claim C9: each `ParticleManager.update` frame with lerp factor
`2.0 * delta` in [0,1] moves a particle to a convex combination of its
previous position and the current mode's target position (a point of the
segment between them), and the shader's pre-turbulence mix
`mix(rest, alternate, blend)` is likewise a convex combination of rest
and alternate for a blend in [0,1]: positions are never snapped to a
target. -/
theorem update_convex (mode : Mode) (it : Item) (isTargetPhoto : Bool)
    (pos : Point) (delta : ℝ) (rest alternate : Point) (blend : ℝ)
    (h0 : 0 ≤ 2.0 * delta) (h1 : 2.0 * delta ≤ 1)
    (hb0 : 0 ≤ blend) (hb1 : blend ≤ 1) :
    (∃ a b : ℝ, 0 ≤ a ∧ 0 ≤ b ∧ a + b = 1 ∧
      updatePosition mode it isTargetPhoto pos delta =
        ⟨a * pos.x + b * (updateTargetPos mode it isTargetPhoto).x,
         a * pos.y + b * (updateTargetPos mode it isTargetPhoto).y,
         a * pos.z + b * (updateTargetPos mode it isTargetPhoto).z⟩) ∧
    (∃ a b : ℝ, 0 ≤ a ∧ 0 ≤ b ∧ a + b = 1 ∧
      MainJs.glslMix rest alternate blend =
        ⟨a * rest.x + b * alternate.x,
         a * rest.y + b * alternate.y,
         a * rest.z + b * alternate.z⟩) := by
  constructor
  · refine ⟨1 - 2.0 * delta, 2.0 * delta, by linarith, h0, by ring, ?_⟩
    unfold updatePosition lerpV
    simp only [Point.mk.injEq]
    refine ⟨by ring, by ring, by ring⟩
  · refine ⟨1 - blend, blend, by linarith, hb0, by ring, ?_⟩
    unfold MainJs.glslMix
    simp only [Point.mk.injEq]
    refine ⟨by ring, by ring, by ring⟩

/-- Witness for C9: in TREE mode with delta 0.25 and blend 0.5, both the
CPU lerp step and the shader mix are convex combinations. -/
theorem update_convex_witness :
    (∃ a b : ℝ, 0 ≤ a ∧ 0 ≤ b ∧ a + b = 1 ∧
      updatePosition .TREE ⟨.PARTICLE, ⟨1, 2, 3⟩, ⟨4, 5, 6⟩⟩ false ⟨0, 0, 0⟩ 0.25 =
        ⟨a * (0:ℝ) + b * (1:ℝ), a * (0:ℝ) + b * (2:ℝ), a * (0:ℝ) + b * (3:ℝ)⟩) ∧
    (∃ a b : ℝ, 0 ≤ a ∧ 0 ≤ b ∧ a + b = 1 ∧
      MainJs.glslMix ⟨0, 0, 0⟩ ⟨2, 2, 2⟩ 0.5 =
        ⟨a * (0:ℝ) + b * (2:ℝ), a * (0:ℝ) + b * (2:ℝ), a * (0:ℝ) + b * (2:ℝ)⟩) :=
  update_convex .TREE ⟨.PARTICLE, ⟨1, 2, 3⟩, ⟨4, 5, 6⟩⟩ false ⟨0, 0, 0⟩ 0.25
    ⟨0, 0, 0⟩ ⟨2, 2, 2⟩ 0.5 (by norm_num) (by norm_num) (by norm_num) (by norm_num)

/-- Claim C10: `triggerFocus` either picks some item of the current list
whose `userData.type` is `'PHOTO'` as the new `STATE.targetPhoto`, or —
when no PHOTO item exists — leaves `STATE.targetPhoto` unchanged without
failing; and because the constructor always appends one default photo,
`triggerFocus` on a constructed item list always selects an existing
photo frame. -/
theorem triggerFocus_photo :
    (∀ (items : List Item) (tp : Option Item) (k : ℕ),
      (∃ it, triggerFocus items tp k = some it ∧ it ∈ items ∧ it.type = ItemType.PHOTO) ∨
      (triggerFocus items tp k = tp ∧ ∀ it ∈ items, it.type ≠ ItemType.PHOTO)) ∧
    (∀ (count : ℕ) (uT uS1 uS2 uS3 : ℕ → ℝ) (uP uPS1 uPS2 uPS3 : ℝ)
        (tp : Option Item) (k : ℕ),
      ∃ it, triggerFocus (constructorItems count uT uS1 uS2 uS3 uP uPS1 uPS2 uPS3) tp k
          = some it ∧
        it ∈ constructorItems count uT uS1 uS2 uS3 uP uPS1 uPS2 uPS3 ∧
        it.type = ItemType.PHOTO) := by
  have main : ∀ (items : List Item) (tp : Option Item) (k : ℕ),
      (∃ it, triggerFocus items tp k = some it ∧ it ∈ items ∧ it.type = ItemType.PHOTO) ∨
      (triggerFocus items tp k = tp ∧ ∀ it ∈ items, it.type ≠ ItemType.PHOTO) := by
    intro items tp k
    have filterFact : ∀ (j : Fin (items.filter
        (fun it => decide (it.type = ItemType.PHOTO))).length),
        (items.filter (fun it => decide (it.type = ItemType.PHOTO))).get j ∈ items ∧
        ((items.filter (fun it => decide (it.type = ItemType.PHOTO))).get j).type =
          ItemType.PHOTO := by
      intro j
      have hmem := List.get_mem (items.filter (fun it => decide (it.type = ItemType.PHOTO))) j j.isLt
      have hsplit := List.mem_filter.mp hmem
      exact ⟨hsplit.1, by simpa using hsplit.2⟩
    unfold triggerFocus
    by_cases h : (items.filter (fun it => decide (it.type = ItemType.PHOTO))).length > 0
    · left
      rw [dif_pos h]
      exact ⟨_, rfl, (filterFact _).1, (filterFact _).2⟩
    · right
      rw [dif_neg h]
      refine ⟨rfl, fun it hit hty => h ?_⟩
      have : it ∈ items.filter (fun it => decide (it.type = ItemType.PHOTO)) :=
        List.mem_filter.mpr ⟨hit, by simpa using hty⟩
      exact List.length_pos.mpr (List.ne_nil_of_mem this)
  refine ⟨main, ?_⟩
  intro count uT uS1 uS2 uS3 uP uPS1 uPS2 uPS3 tp k
  set items := constructorItems count uT uS1 uS2 uS3 uP uPS1 uPS2 uPS3 with hi
  have hphoto : (⟨ItemType.PHOTO, calculateTreePos (uP * 1000) 1000 true 0,
      calculateScatterPos uPS1 uPS2 uPS3⟩ : Item) ∈ items := by
    rw [hi]
    unfold constructorItems
    exact List.mem_append_right _ (List.mem_singleton.mpr rfl)
  rcases main items tp k with h | ⟨_, hall⟩
  · exact h
  · exact absurd rfl (hall _ hphoto)

/-- Helper: binding an `Except` success just applies the continuation. -/
lemma ebind_ok {α β : Type} (a : α) (f : α → Except Unit β) :
    (Except.ok a >>= f) = f a := rfl

/-- Helper: binding an `Except` failure propagates the failure. -/
lemma ebind_err {α β : Type} (f : α → Except Unit β) :
    (Except.error () >>= f) = .error () := rfl

/-- Helper: `pure` on `Except Unit` is `.ok`. -/
lemma epure_eq {α : Type} (a : α) : (pure a : Except Unit α) = .ok a := rfl

/-- Helper: indexing the 21-landmark list of a full hand succeeds and
returns the corresponding landmark. -/
lemma getLm_ofFn (hand : Hand) (i : ℕ) (j : Fin 21) (h : i = j.val) :
    MainJs.getLm (List.ofFn hand) i = .ok (hand j) := by
  subst h
  unfold MainJs.getLm
  rw [List.get?_ofFn]
  simp [List.ofFnNthVal, j.isLt]

/-- Helper: an `Except`-valued left fold fails whenever some list element
makes the folding step fail no matter the accumulator. -/
lemma foldlM_err {α β : Type} (f : β → α → Except Unit β) (l : List α) (a : α)
    (ha : a ∈ l) (hf : ∀ b, f b a = .error ()) :
    ∀ init, l.foldlM f init = .error () := by
  induction l with
  | nil => cases ha
  | cons x xs ih =>
    intro init
    rcases List.mem_cons.mp ha with rfl | hmem
    · rw [List.foldlM, hf init, ebind_err]
    · cases hx : f init x with
      | error e =>
        cases e
        rw [List.foldlM, hx, ebind_err]
      | ok b =>
        rw [List.foldlM, hx, ebind_ok]
        exact ih hmem b

/-- Claim C1: on every full 21-landmark hand, `main.js` `detectGesture`
returns exactly the spec classification — a finger is extended iff its
tip's 3D distance to the wrist exceeds 1.5 times its knuckle's, and the
result is OPEN for at least 3 extended fingers, CLOSED for at most 1,
NONE for exactly 2. -/
theorem detectGesture_matches_spec (hand : Hand) :
    MainJs.detectGesture (some (List.ofFn hand)) = .ok (gestureSpec hand) := by
  have h0 := getLm_ofFn hand 0 0 (by decide)
  have h8 := getLm_ofFn hand 8 8 (by decide)
  have h5 := getLm_ofFn hand 5 5 (by decide)
  have h12 := getLm_ofFn hand 12 12 (by decide)
  have h9 := getLm_ofFn hand 9 9 (by decide)
  have h16 := getLm_ofFn hand 16 16 (by decide)
  have h13 := getLm_ofFn hand 13 13 (by decide)
  have h20 := getLm_ofFn hand 20 20 (by decide)
  have h17 := getLm_ofFn hand 17 17 (by decide)
  unfold MainJs.detectGesture
  dsimp only
  rw [if_neg (by simp)]
  simp only [MainJs.fingerIndices, List.foldlM, h0, h8, h5, h12, h9, h16, h13, h20, h17,
    ebind_ok, epure_eq]
  by_cases p1 : MainJs.dist (hand 8) (hand 0) > MainJs.dist (hand 5) (hand 0) * 1.5 <;>
    by_cases p2 : MainJs.dist (hand 12) (hand 0) > MainJs.dist (hand 9) (hand 0) * 1.5 <;>
      by_cases p3 : MainJs.dist (hand 16) (hand 0) > MainJs.dist (hand 13) (hand 0) * 1.5 <;>
        by_cases p4 : MainJs.dist (hand 20) (hand 0) > MainJs.dist (hand 17) (hand 0) * 1.5 <;>
          simp [p1, p2, p3, p4, gestureSpec, specExtendedCount, specFingers, extendedFinger,
            List.countP_cons, List.countP_nil]

/-- Counterexample to claim C3: a degenerate hand carrying only its wrist
landmark is not treated as absent — `detectGesture` dereferences the
missing index-fingertip landmark (index 8), i.e. it throws instead of
returning NONE. -/
theorem detectGesture_short_hand_throws :
    MainJs.detectGesture (some [⟨0, 0, 0⟩]) = .error () := rfl

/-- Claim C3 (amended): `detectGesture` returns NONE without throwing for
absent input — a null landmark list or an empty one — but a nonempty hand
with fewer than 21 landmarks is NOT treated as absent: the classifier
reads a missing landmark and throws. -/
theorem detectGesture_absent_input :
    MainJs.detectGesture none = .ok .NONE ∧
    MainJs.detectGesture (some []) = .ok .NONE ∧
    ∀ lms : List Point, lms ≠ [] → lms.length < 21 →
      MainJs.detectGesture (some lms) = .error () := by
  refine ⟨rfl, rfl, fun lms hne hlen => ?_⟩
  obtain ⟨p0, rest, rfl⟩ : ∃ p0 rest, lms = p0 :: rest := by
    cases lms with
    | nil => exact absurd rfl hne
    | cons a l => exact ⟨a, l, rfl⟩
  have h20 : MainJs.getLm (p0 :: rest) 20 = .error () := by
    unfold MainJs.getLm
    rw [List.get?_eq_none.mpr (by omega)]
  unfold MainJs.detectGesture
  dsimp only
  rw [if_neg (by simp)]
  have g0 : MainJs.getLm (p0 :: rest) 0 = .ok p0 := rfl
  rw [g0, ebind_ok]
  rw [foldlM_err _ MainJs.fingerIndices (20, 17) (by simp [MainJs.fingerIndices])
    (fun b => by
      show (MainJs.getLm (p0 :: rest) 20 >>= _) = _
      rw [h20, ebind_err]) 0]
  rw [ebind_err]

/-- Witness for amended C3: a two-landmark hand is nonempty and shorter
than 21 landmarks, and `detectGesture` throws on it. -/
theorem detectGesture_absent_input_witness :
    MainJs.detectGesture (some [⟨0, 0, 0⟩, ⟨1, 2, 3⟩]) = .error () :=
  detectGesture_absent_input.2.2 [⟨0, 0, 0⟩, ⟨1, 2, 3⟩] (by simp) (by simp)

/-- Witness for C10: on a freshly constructed two-particle item list the
focus trigger selects some existing PHOTO item. -/
theorem triggerFocus_photo_witness :
    ∃ it, triggerFocus
        (constructorItems 2 (fun _ => 0) (fun _ => 0) (fun _ => 0) (fun _ => 0) 0 0 0 0)
        none 0 = some it ∧
      it ∈ constructorItems 2 (fun _ => 0) (fun _ => 0) (fun _ => 0) (fun _ => 0) 0 0 0 0 ∧
      it.type = ItemType.PHOTO :=
  triggerFocus_photo.2 2 (fun _ => 0) (fun _ => 0) (fun _ => 0) (fun _ => 0) 0 0 0 0 none 0

end Theorems
